import Mathlib

/-!
Shallow embedding of the autoFilm front-end client (TypeScript/React) and
verification of its specification's testable properties.

Embedded source files:
- `frontend/src/types/index.ts` — data model (structures and enumerations);
- `frontend/src/services/api.ts` — the resource client `ApiService`:
  per-operation envelope handling and the 401 response interceptor;
- `frontend/src/contexts/AppContext.tsx` — the application state container
  (`uiState` mutators, `updateProject`, `removeProject`, `clearCache`);
- `frontend/src/pages/DashboardPage.tsx` — the dashboard create-project
  validation flow and the editor page's convert flow.

Browser `localStorage` is modelled as an association list from keys to
values; JavaScript string truthiness (`""` is falsy, as in `message ||
default`) is modelled explicitly by `jsOr` and `jsTruthyStr`.
-/

namespace AutoFilm

/-- JavaScript `String.prototype.trim`: strip leading and trailing
whitespace characters. -/
def jsTrim (s : String) : String :=
  ⟨((s.data.dropWhile Char.isWhitespace).reverse.dropWhile Char.isWhitespace).reverse⟩

/-- JavaScript `String.prototype.startsWith(p)` applied to `s`. -/
def strStartsWith (p : String) (s : String) : Bool :=
  List.isPrefixOf p.data s.data

/-- JavaScript `m || dflt` where `m` is an optional string: a missing or
empty (falsy) string yields the default. -/
def jsOr (m : Option String) (dflt : String) : String :=
  match m with
  | some s => if s = "" then dflt else s
  | none => dflt

/-- JavaScript `m || undefined` where `m` is a nullable string: `null` and
the empty string both collapse to `undefined`. -/
def jsTruthyStr (m : Option String) : Option String :=
  match m with
  | some s => if s = "" then none else some s
  | none => none

/-! ## Data model (`frontend/src/types/index.ts`) -/

inductive ShotType
  | extremeWide | wide | mediumWide | medium | mediumClose | closeUp
  | extremeCloseUp | insert | cutaway | overShoulder | twoShot | masterShot
deriving DecidableEq, Repr

inductive CameraAngle
  | eyeLevel | highAngle | lowAngle | birdEye | wormEye | dutchAngle
  | overShoulder | pointOfView
deriving DecidableEq, Repr

inductive TimeOfDay
  | dawn | morning | day | afternoon | evening | night | lateNight
deriving DecidableEq, Repr

structure User where
  id : String
  email : String
  username : String
  createdAt : String
  updatedAt : String
deriving DecidableEq, Repr

structure AuthResponse where
  user : User
  token : String
deriving DecidableEq, Repr

structure StoryboardScene where
  id : String
  sceneNumber : Nat
  description : String
  shotType : ShotType
  cameraAngle : CameraAngle
  duration : Nat
  notes : Option String
  characters : List String
  location : String
  timeOfDay : TimeOfDay
  movement : Option String
  dialogue : Option String
deriving DecidableEq, Repr

structure Project where
  id : String
  name : String
  description : Option String
  scriptContent : String
  storyboardData : Option (List StoryboardScene)
  createdAt : String
  updatedAt : String
  userId : String
deriving DecidableEq, Repr

/-- The `{success, data?, message?, error?}` response envelope. -/
structure ApiResponse (α : Type) where
  success : Bool
  data : Option α
  message : Option String
  error : Option String
deriving DecidableEq, Repr

structure Pagination where
  page : Nat
  limit : Nat
  total : Nat
  totalPages : Nat
deriving DecidableEq, Repr

/-- Paginated list envelope: `{success, data: T[], pagination}`. -/
structure PaginatedResponse (α : Type) where
  success : Bool
  data : List α
  pagination : Pagination
deriving DecidableEq, Repr

structure ConversionMetadata where
  totalScenes : Nat
  estimatedDuration : Nat
  shotBreakdown : List (ShotType × Nat)
deriving DecidableEq, Repr

structure ConversionResponse where
  success : Bool
  storyboard : List StoryboardScene
  processingTime : Nat
  metadata : Option ConversionMetadata
deriving DecidableEq, Repr

structure ExportResponse where
  success : Bool
  downloadUrl : String
  filename : String
  fileSize : Nat
deriving DecidableEq, Repr

structure UploadResult where
  url : String
  filename : String
deriving DecidableEq, Repr

structure HealthStatus where
  status : String
  timestamp : String
deriving DecidableEq, Repr

structure AppError where
  code : String
  message : String
  timestamp : String
deriving DecidableEq, Repr

/-- `UIState {isLoading, error?, success?}`. -/
structure UIState where
  isLoading : Bool
  error : Option AppError
  success : Option String
deriving DecidableEq, Repr

/-! ## Browser-local durable storage (`window.localStorage`) -/

/-- `localStorage` as an association list of key/value pairs (keys unique
by construction of `setItem`). -/
abbrev LocalStorage := List (String × String)

/-- `localStorage.getItem(k)`. -/
def getItem : LocalStorage → String → Option String
  | [], _ => none
  | e :: rest, k => if e.1 = k then some e.2 else getItem rest k

/-- `localStorage.removeItem(k)`. -/
def removeItem : LocalStorage → String → LocalStorage
  | [], _ => []
  | e :: rest, k => if e.1 = k then removeItem rest k else e :: removeItem rest k

/-- `localStorage.setItem(k, v)`: replaces any existing entry for `k`. -/
def setItem (s : LocalStorage) (k v : String) : LocalStorage :=
  (k, v) :: removeItem s k

/-- `Object.keys(localStorage)`. -/
def storageKeys (s : LocalStorage) : List String :=
  s.map (fun e => e.1)

/-! ## Resource client (`frontend/src/services/api.ts`) -/

/-- Outcome of an `ApiService` operation: the returned value, or the
message of the thrown `Error`. -/
inductive ApiResult (α : Type)
  | ok (value : α)
  | err (msg : String)
deriving DecidableEq, Repr

namespace ApiService

/-- The shared envelope check `if (r.success && r.data) return r.data;
throw new Error(r.message || dflt)` used by every data-returning
operation. -/
def handleEnvelope {α : Type} (r : ApiResponse α) (dflt : String) : ApiResult α :=
  match r.success, r.data with
  | true, some d => ApiResult.ok d
  | _, _ => ApiResult.err (jsOr r.message dflt)

/-- The envelope check `if (!r.success) throw new Error(r.message || dflt)`
used by the operations that return no payload. -/
def handleStatus {α : Type} (r : ApiResponse α) (dflt : String) : ApiResult Unit :=
  if r.success then ApiResult.ok () else ApiResult.err (jsOr r.message dflt)

/-- `login`: on `success && data`, persist the token and return the data;
otherwise throw `message || 'Login failed'`. -/
def login (s : LocalStorage) (r : ApiResponse AuthResponse) :
    ApiResult AuthResponse × LocalStorage :=
  match r.success, r.data with
  | true, some d => (ApiResult.ok d, setItem s "auth_token" d.token)
  | _, _ => (ApiResult.err (jsOr r.message "Login failed"), s)

/-- `register`: same shape as `login` with default `'Registration
failed'`. -/
def register (s : LocalStorage) (r : ApiResponse AuthResponse) :
    ApiResult AuthResponse × LocalStorage :=
  match r.success, r.data with
  | true, some d => (ApiResult.ok d, setItem s "auth_token" d.token)
  | _, _ => (ApiResult.err (jsOr r.message "Registration failed"), s)

/-- `logout`: `try { await post('/auth/logout') } finally { clearToken() }` —
the remote outcome propagates unchanged, the token removal is
unconditional. -/
def logout (remote : Except String Unit) (s : LocalStorage) :
    Except String Unit × LocalStorage :=
  (remote, removeItem s "auth_token")

def getProfile (r : ApiResponse User) : ApiResult User :=
  handleEnvelope r "Failed to get profile"

/-- `getProjects`: returns `response.data` directly, without inspecting
the `success` flag of the paginated envelope. -/
def getProjects (r : PaginatedResponse Project) : ApiResult (PaginatedResponse Project) :=
  ApiResult.ok r

def getProject (r : ApiResponse Project) : ApiResult Project :=
  handleEnvelope r "Failed to get project"

def createProject (r : ApiResponse Project) : ApiResult Project :=
  handleEnvelope r "Failed to create project"

def updateProject (r : ApiResponse Project) : ApiResult Project :=
  handleEnvelope r "Failed to update project"

def deleteProject (r : ApiResponse Unit) : ApiResult Unit :=
  handleStatus r "Failed to delete project"

def convertScript (r : ApiResponse ConversionResponse) : ApiResult ConversionResponse :=
  handleEnvelope r "Failed to convert script"

def getStoryboard (r : ApiResponse (List StoryboardScene)) : ApiResult (List StoryboardScene) :=
  handleEnvelope r "Failed to get storyboard"

def updateStoryboard (r : ApiResponse (List StoryboardScene)) : ApiResult (List StoryboardScene) :=
  handleEnvelope r "Failed to update storyboard"

def uploadFile (r : ApiResponse UploadResult) : ApiResult UploadResult :=
  handleEnvelope r "Failed to upload file"

def exportProject (r : ApiResponse ExportResponse) : ApiResult ExportResponse :=
  handleEnvelope r "Failed to export project"

def clearCache (r : ApiResponse Unit) : ApiResult Unit :=
  handleStatus r "Failed to clear cache"

/-- `healthCheck`: returns `response.data` directly (no envelope). -/
def healthCheck (r : HealthStatus) : ApiResult HealthStatus :=
  ApiResult.ok r

end ApiService

/-- The browser state the response interceptor acts on: persisted storage
plus `window.location.href`. -/
structure BrowserState where
  storage : LocalStorage
  location : String
deriving DecidableEq, Repr

/-- The error branch of the response interceptor: on a 401 status, clear
the persisted token and navigate to `'/login'`; otherwise do nothing (the
error is re-rejected either way). -/
def interceptErrorResponse (status : Option Nat) (b : BrowserState) : BrowserState :=
  if status = some 401 then
    { storage := removeItem b.storage "auth_token", location := "/login" }
  else b

/-- Modelled from the spec: the session store (`AuthContext`), which is not
present under `src/`, derives `isAuthenticated` from the presence of an
identity restored on process start from the persisted credential token;
restoration without a token resets state to unauthenticated (spec §3
"presence implies authenticated", §4.2 lifecycle). -/
def isAuthenticatedAfterRestore (s : LocalStorage) : Bool :=
  (getItem s "auth_token").isSome

/-! ## Application state container (`frontend/src/contexts/AppContext.tsx`) -/

namespace AppCtx

/-- `setLoading(loading)`. -/
def setLoading (loading : Bool) (u : UIState) : UIState :=
  { u with isLoading := loading }

/-- `setError(error)`: `{...prev, error: error || undefined, success:
undefined}` — an `AppError` object is always truthy, so only `null`
collapses to `undefined`. -/
def setError (e : Option AppError) (u : UIState) : UIState :=
  { u with error := e, success := none }

/-- `setSuccess(message)`: `{...prev, success: message || undefined,
error: undefined}` — both `null` and the empty string are falsy. -/
def setSuccess (m : Option String) (u : UIState) : UIState :=
  { u with success := jsTruthyStr m, error := none }

/-- `clearMessages()`. -/
def clearMessages (u : UIState) : UIState :=
  { u with error := none, success := none }

/-- The provider's initial `uiState`:
`{isLoading: false, error: undefined, success: undefined}`. -/
def initialUiState : UIState :=
  { isLoading := false, error := none, success := none }

/-- One `uiState` mutation exposed by the container. -/
inductive UiMutation
  | load (b : Bool)
  | err (e : Option AppError)
  | succ (m : Option String)
  | clear
deriving DecidableEq, Repr

def applyUiMutation : UiMutation → UIState → UIState
  | UiMutation.load b, u => setLoading b u
  | UiMutation.err e, u => setError e u
  | UiMutation.succ m, u => setSuccess m u
  | UiMutation.clear, u => clearMessages u

/-- Apply a sequence of `uiState` mutations in order. -/
def runUiMutations (ms : List UiMutation) (u : UIState) : UIState :=
  ms.foldl (fun acc m => applyUiMutation m acc) u

/-- The project/UI slice of the container's state. -/
structure AppState where
  uiState : UIState
  currentProject : Option Project
  projects : List Project
  cacheEnabled : Bool
  theme : String
  uploadProgress : Nat
deriving DecidableEq, Repr

/-- `updateProject(updatedProject)`: map–replace by id over the list, and
refresh the active pointer when `currentProject?.id === updatedProject.id`. -/
def updateProject (p : Project) (s : AppState) : AppState :=
  { s with
    projects := s.projects.map (fun q => if q.id = p.id then p else q),
    currentProject :=
      match s.currentProject with
      | some c => if c.id = p.id then some p else some c
      | none => none }

/-- `removeProject(projectId)`: filter out entries with the given id, and
null the active pointer when `currentProject?.id === projectId`. -/
def removeProject (pid : String) (s : AppState) : AppState :=
  { s with
    projects := s.projects.filter (fun q => q.id != pid),
    currentProject :=
      match s.currentProject with
      | some c => if c.id = pid then none else some c
      | none => none }

/-- One step of the container's `clearCache` loop body:
`if (key.startsWith('cache_')) localStorage.removeItem(key)`. -/
def clearCacheStep (acc : LocalStorage) (k : String) : LocalStorage :=
  if strStartsWith "cache_" k then removeItem acc k else acc

/-- `clearCache()`: iterate `Object.keys(localStorage)` and remove every
key namespaced with `'cache_'`. -/
def clearCache (s : LocalStorage) : LocalStorage :=
  (storageKeys s).foldl clearCacheStep s

end AppCtx

/-! ## Dashboard create-project flow (`frontend/src/pages/DashboardPage.tsx`) -/

namespace Dashboard

/-- The `createForm` state (all fields initialised to `''`). -/
structure CreateForm where
  name : String
  description : String
  scriptContent : String
deriving DecidableEq, Repr

/-- The `createErrors` field-level error record. -/
structure CreateErrors where
  name : Option String
  description : Option String
deriving DecidableEq, Repr

/-- `validateCreateForm`: name must be non-blank and at least 3 characters;
a non-empty description must be at most 500 characters. -/
def validateCreateForm (f : CreateForm) : CreateErrors :=
  { name :=
      if jsTrim f.name = "" then some "Project name is required"
      else if f.name.length < 3 then some "Project name must be at least 3 characters"
      else none,
    description :=
      if f.description ≠ "" ∧ f.description.length > 500 then
        some "Description must be less than 500 characters"
      else none }

/-- `Object.keys(errors).length === 0`. -/
def isValidCreateForm (f : CreateForm) : Bool :=
  (validateCreateForm f).name.isNone && (validateCreateForm f).description.isNone

/-- What `handleCreateProject` does before any I/O: either reject locally
with field-level errors, or issue the `createProject` network request. -/
inductive CreateOutcome
  | rejected (errors : CreateErrors)
  | requested (f : CreateForm)
deriving DecidableEq, Repr

/-- `handleCreateProject`: `if (!validateCreateForm()) return;` — only a
valid form reaches `apiService.createProject(createForm)`. -/
def handleCreateProject (f : CreateForm) : CreateOutcome :=
  if isValidCreateForm f then CreateOutcome.requested f
  else CreateOutcome.rejected (validateCreateForm f)

end Dashboard

/-! ## Editor convert flow (`EditorPage.handleConvertScript`) -/

namespace Editor

/-- The editor-page state touched by the convert flow. -/
structure EditorView where
  currentProject : Option Project
  scriptContent : String
  storyboard : List StoryboardScene
  isConverting : Bool
  ui : UIState
deriving DecidableEq, Repr

/-- `handleConvertScript`, with the awaited outcome of
`apiService.convertScript` passed in as `call` and the current timestamp
as `now`: guard on a missing project or blank script; on success replace
the storyboard and set a success message; on failure set a
`CONVERT_ERROR` and touch nothing else; `isConverting` is reset in the
`finally`. -/
def handleConvertScript (now : String) (call : ApiResult ConversionResponse)
    (v : EditorView) : EditorView :=
  if v.currentProject = none ∨ jsTrim v.scriptContent = "" then
    { v with
      ui := AppCtx.setError
        (some { code := "CONVERT_ERROR",
                message := "Please enter a script before converting",
                timestamp := now }) v.ui }
  else
    match call with
    | ApiResult.ok resp =>
      { v with
        storyboard := resp.storyboard,
        ui := AppCtx.setSuccess
          (some ("Generated " ++ toString resp.storyboard.length ++
                 " scenes in " ++ toString resp.processingTime ++ "ms")) v.ui,
        isConverting := false }
    | ApiResult.err m =>
      { v with
        ui := AppCtx.setError
          (some { code := "CONVERT_ERROR", message := m, timestamp := now }) v.ui,
        isConverting := false }

end Editor

/-! ## Sample data (used to instantiate the verified properties) -/

def sampleScene : StoryboardScene :=
  { id := "s1", sceneNumber := 1, description := "Opening shot",
    shotType := ShotType.wide, cameraAngle := CameraAngle.eyeLevel,
    duration := 5, notes := none, characters := ["ALICE"],
    location := "INT. OFFICE", timeOfDay := TimeOfDay.day,
    movement := none, dialogue := none }

def sampleProject : Project :=
  { id := "p1", name := "Alpha", description := none, scriptContent := "",
    storyboardData := none, createdAt := "2024-01-01", updatedAt := "2024-01-02",
    userId := "u1" }

def sampleProject2 : Project :=
  { sampleProject with id := "p2", name := "Beta" }

def sampleError : AppError :=
  { code := "E", message := "failure", timestamp := "2024-01-03" }

def sampleState : AppCtx.AppState :=
  { uiState := AppCtx.initialUiState, currentProject := some sampleProject,
    projects := [sampleProject, sampleProject2], cacheEnabled := true,
    theme := "light", uploadProgress := 0 }

def sampleEditorView : Editor.EditorView :=
  { currentProject := some sampleProject, scriptContent := "hello world",
    storyboard := [sampleScene], isConverting := true,
    ui := AppCtx.initialUiState }

/-! ## Helper lemmas about the storage model -/

theorem getItem_removeItem (k k' : String) :
    ∀ s : LocalStorage, getItem (removeItem s k') k = if k = k' then none else getItem s k := by
  intro s
  induction s with
  | nil => simp [getItem, removeItem]
  | cons e rest ih =>
      by_cases h1 : e.1 = k'
      · by_cases h2 : k = k'
        · subst h2
          simp [removeItem, h1, ih]
        · have h2s : k' ≠ k := fun hh => h2 hh.symm
          have h3 : e.1 ≠ k := fun hh => h2 (hh.symm.trans h1)
          simp [removeItem, getItem, h1, h3, ih, h2, h2s]
      · by_cases h3 : e.1 = k
        · have h2 : ¬k = k' := fun hh => h1 (h3.trans hh)
          simp [removeItem, getItem, h1, h3, ih, h2]
        · simp [removeItem, getItem, h1, h3, ih]

theorem getItem_removeItem_self (s : LocalStorage) (k : String) :
    getItem (removeItem s k) k = none := by
  simp [getItem_removeItem]

theorem mem_storageKeys_of_getItem (k : String) :
    ∀ s : LocalStorage, getItem s k ≠ none → k ∈ storageKeys s := by
  intro s
  induction s with
  | nil => intro h; simp [getItem] at h
  | cons e rest ih =>
      intro h
      by_cases h1 : e.1 = k
      · simp [storageKeys]
        exact Or.inl h1.symm
      · have h2 : getItem rest k ≠ none := by
          simpa [getItem, h1] using h
        have h3 := ih h2
        simp only [storageKeys, List.map_cons, List.mem_cons]
        exact Or.inr (by simpa [storageKeys] using h3)

theorem foldl_clearCacheStep_none (k : String) :
    ∀ (ks : List String) (acc : LocalStorage), getItem acc k = none →
      getItem (ks.foldl AppCtx.clearCacheStep acc) k = none := by
  intro ks
  induction ks with
  | nil => intro acc h; simpa using h
  | cons k' ks ih =>
      intro acc h
      simp only [List.foldl_cons]
      apply ih
      unfold AppCtx.clearCacheStep
      by_cases hp : strStartsWith "cache_" k' = true
      · by_cases he : k = k' <;> simp [hp, getItem_removeItem, he, h]
      · simp at hp
        simp [hp, h]

theorem foldl_clearCacheStep_of_not_cache (k : String)
    (hk : strStartsWith "cache_" k = false) :
    ∀ (ks : List String) (acc : LocalStorage),
      getItem (ks.foldl AppCtx.clearCacheStep acc) k = getItem acc k := by
  intro ks
  induction ks with
  | nil => intro acc; simp
  | cons k' ks ih =>
      intro acc
      simp only [List.foldl_cons]
      rw [ih]
      unfold AppCtx.clearCacheStep
      by_cases hp : strStartsWith "cache_" k' = true
      · have hne : k ≠ k' := by
          intro he
          rw [he] at hk
          simp [hp] at hk
        simp [hp, getItem_removeItem, hne]
      · simp at hp
        simp [hp]

theorem foldl_clearCacheStep_of_mem (k : String)
    (hk : strStartsWith "cache_" k = true) :
    ∀ (ks : List String) (acc : LocalStorage), k ∈ ks →
      getItem (ks.foldl AppCtx.clearCacheStep acc) k = none := by
  intro ks
  induction ks with
  | nil => intro acc h; cases h
  | cons k' ks ih =>
      intro acc hmem
      simp only [List.foldl_cons]
      rcases List.mem_cons.mp hmem with he | hm
      · subst he
        apply foldl_clearCacheStep_none
        unfold AppCtx.clearCacheStep
        simp [hk, getItem_removeItem_self]
      · exact ih _ hm

/-! ## Helper lemmas about the envelope handlers -/

theorem handleEnvelope_of_success_false {α : Type} (r : ApiResponse α) (d : String)
    (h : r.success = false) :
    ApiService.handleEnvelope r d = ApiResult.err (jsOr r.message d) := by
  obtain ⟨su, da, me, er⟩ := r
  cases su
  · cases da <;> rfl
  · simp at h

theorem handleStatus_of_success_false {α : Type} (r : ApiResponse α) (d : String)
    (h : r.success = false) :
    ApiService.handleStatus r d = ApiResult.err (jsOr r.message d) := by
  simp [ApiService.handleStatus, h]

/-! ## Helper lemmas about `uiState` mutation sequences -/

theorem applyUiMutation_exclusive (m : AppCtx.UiMutation) (u : UIState)
    (h : u.error = none ∨ u.success = none) :
    (AppCtx.applyUiMutation m u).error = none ∨ (AppCtx.applyUiMutation m u).success = none := by
  cases m with
  | load b =>
      simpa [AppCtx.applyUiMutation, AppCtx.setLoading] using h
  | err e =>
      right
      rfl
  | succ mm =>
      left
      rfl
  | clear =>
      left
      rfl

theorem runUiMutations_exclusive (ms : List AppCtx.UiMutation) :
    ∀ u : UIState, u.error = none ∨ u.success = none →
      (AppCtx.runUiMutations ms u).error = none ∨ (AppCtx.runUiMutations ms u).success = none := by
  induction ms with
  | nil => intro u h; exact h
  | cons m ms ih =>
      intro u h
      exact ih (AppCtx.applyUiMutation m u) (applyUiMutation_exclusive m u h)

/-! ## C1 — envelope failure handling across the resource client -/

/-- C1 counterexample: `getProjects` receives a paginated envelope with
`success = false` and still returns it as a value (`ApiResult.ok`) instead
of failing — the source returns `response.data` without inspecting
`success`. -/
theorem getProjects_success_false_returns_value :
    ApiService.getProjects { success := false, data := [], pagination := { page := 1, limit := 10, total := 0, totalPages := 0 } }
      = ApiResult.ok { success := false, data := [], pagination := { page := 1, limit := 10, total := 0, totalPages := 0 } } :=
  rfl

/-- C1 (amended): every resource-client operation except the paginated
list fetch `getProjects` (and the envelope-less `healthCheck`) fails on a
`success = false` envelope with an error message equal to the envelope's
`message` when present and non-empty, and the operation-specific default
otherwise; `getProjects` returns the response body regardless of the
`success` flag. -/
theorem envelope_failure_behavior :
    (∀ (s : LocalStorage) (r : ApiResponse AuthResponse), r.success = false →
      (ApiService.login s r).1 = ApiResult.err (jsOr r.message "Login failed")) ∧
    (∀ (s : LocalStorage) (r : ApiResponse AuthResponse), r.success = false →
      (ApiService.register s r).1 = ApiResult.err (jsOr r.message "Registration failed")) ∧
    (∀ r : ApiResponse User, r.success = false →
      ApiService.getProfile r = ApiResult.err (jsOr r.message "Failed to get profile")) ∧
    (∀ r : ApiResponse Project, r.success = false →
      ApiService.getProject r = ApiResult.err (jsOr r.message "Failed to get project")) ∧
    (∀ r : ApiResponse Project, r.success = false →
      ApiService.createProject r = ApiResult.err (jsOr r.message "Failed to create project")) ∧
    (∀ r : ApiResponse Project, r.success = false →
      ApiService.updateProject r = ApiResult.err (jsOr r.message "Failed to update project")) ∧
    (∀ r : ApiResponse Unit, r.success = false →
      ApiService.deleteProject r = ApiResult.err (jsOr r.message "Failed to delete project")) ∧
    (∀ r : ApiResponse ConversionResponse, r.success = false →
      ApiService.convertScript r = ApiResult.err (jsOr r.message "Failed to convert script")) ∧
    (∀ r : ApiResponse (List StoryboardScene), r.success = false →
      ApiService.getStoryboard r = ApiResult.err (jsOr r.message "Failed to get storyboard")) ∧
    (∀ r : ApiResponse (List StoryboardScene), r.success = false →
      ApiService.updateStoryboard r = ApiResult.err (jsOr r.message "Failed to update storyboard")) ∧
    (∀ r : ApiResponse UploadResult, r.success = false →
      ApiService.uploadFile r = ApiResult.err (jsOr r.message "Failed to upload file")) ∧
    (∀ r : ApiResponse ExportResponse, r.success = false →
      ApiService.exportProject r = ApiResult.err (jsOr r.message "Failed to export project")) ∧
    (∀ r : ApiResponse Unit, r.success = false →
      ApiService.clearCache r = ApiResult.err (jsOr r.message "Failed to clear cache")) ∧
    (∀ r : PaginatedResponse Project, ApiService.getProjects r = ApiResult.ok r) := by
  refine ⟨?_, ?_, ?_, ?_, ?_, ?_, ?_, ?_, ?_, ?_, ?_, ?_, ?_, fun r => rfl⟩
  · intro s r h
    obtain ⟨su, da, me, er⟩ := r
    cases su
    · cases da <;> rfl
    · simp at h
  · intro s r h
    obtain ⟨su, da, me, er⟩ := r
    cases su
    · cases da <;> rfl
    · simp at h
  · exact fun r h => handleEnvelope_of_success_false r _ h
  · exact fun r h => handleEnvelope_of_success_false r _ h
  · exact fun r h => handleEnvelope_of_success_false r _ h
  · exact fun r h => handleEnvelope_of_success_false r _ h
  · exact fun r h => handleStatus_of_success_false r _ h
  · exact fun r h => handleEnvelope_of_success_false r _ h
  · exact fun r h => handleEnvelope_of_success_false r _ h
  · exact fun r h => handleEnvelope_of_success_false r _ h
  · exact fun r h => handleEnvelope_of_success_false r _ h
  · exact fun r h => handleEnvelope_of_success_false r _ h
  · exact fun r h => handleStatus_of_success_false r _ h

/-- C1 witness: a concrete `success = false` envelope with message `"X"`
makes `getProfile` fail with message `"X"`, and one without a message
makes `getProject` fail with its default. -/
theorem envelope_failure_behavior_witness :
    ApiService.getProfile { success := false, data := none, message := some "X", error := none }
      = ApiResult.err "X" ∧
    ApiService.getProject { success := false, data := none, message := none, error := none }
      = ApiResult.err "Failed to get project" :=
  ⟨envelope_failure_behavior.2.2.1 { success := false, data := none, message := some "X", error := none } rfl,
   envelope_failure_behavior.2.2.2.1 { success := false, data := none, message := none, error := none } rfl⟩

/-! ## C2 — mutual exclusivity of `uiState.error` and `uiState.success` -/

/-- C2 counterexample: `setSuccess` with the non-null empty string does
not set the success message — `message || undefined` treats `""` as
falsy, so the stored success is `none`, not `some ""`. -/
theorem setSuccess_empty_string_clears :
    (AppCtx.setSuccess (some "") AppCtx.initialUiState).success = none ∧
    (some "" ≠ (none : Option String)) := by
  exact ⟨rfl, by simp⟩

/-- C2 (amended): `setError` with a non-null error sets the error and
clears the success message; `setSuccess` with a non-null, non-empty
message sets the success message and clears the error (the empty string
clears both); after any sequence of `uiState` mutations from the initial
state, the error and the success message are never both set. -/
theorem uiState_message_exclusivity :
    (∀ (e : AppError) (u : UIState),
      (AppCtx.setError (some e) u).error = some e ∧
      (AppCtx.setError (some e) u).success = none) ∧
    (∀ (m : String) (u : UIState), m ≠ "" →
      (AppCtx.setSuccess (some m) u).success = some m ∧
      (AppCtx.setSuccess (some m) u).error = none) ∧
    (∀ ms : List AppCtx.UiMutation,
      (AppCtx.runUiMutations ms AppCtx.initialUiState).error = none ∨
      (AppCtx.runUiMutations ms AppCtx.initialUiState).success = none) := by
  refine ⟨fun e u => ⟨rfl, rfl⟩, ?_, ?_⟩
  · intro m u hm
    constructor
    · simp [AppCtx.setSuccess, jsTruthyStr, hm]
    · rfl
  · intro ms
    exact runUiMutations_exclusive ms AppCtx.initialUiState (Or.inl rfl)

/-- C2 witness: a concrete non-empty success message is stored and clears
the error, and a concrete mutation sequence ends with at most one of the
two messages set. -/
theorem uiState_message_exclusivity_witness :
    ((AppCtx.setSuccess (some "Saved") AppCtx.initialUiState).success = some "Saved" ∧
     (AppCtx.setSuccess (some "Saved") AppCtx.initialUiState).error = none) ∧
    ((AppCtx.runUiMutations
        [AppCtx.UiMutation.succ (some "Saved"), AppCtx.UiMutation.err (some sampleError)]
        AppCtx.initialUiState).error = none ∨
     (AppCtx.runUiMutations
        [AppCtx.UiMutation.succ (some "Saved"), AppCtx.UiMutation.err (some sampleError)]
        AppCtx.initialUiState).success = none) :=
  ⟨uiState_message_exclusivity.2.1 "Saved" AppCtx.initialUiState (by decide),
   uiState_message_exclusivity.2.2
     [AppCtx.UiMutation.succ (some "Saved"), AppCtx.UiMutation.err (some sampleError)]⟩

/-! ## C3 — the 401 interceptor clears the session -/

/-- C3: on any unauthorized (401) response, regardless of which operation
triggered it, the interceptor removes the persisted credential token from
durable storage and navigates to the login entry point, after which
`isAuthenticated` (session restoration from the persisted token, modelled
from the spec) evaluates false. -/
theorem unauthorized_clears_credential_and_redirects (status : Option Nat) (b : BrowserState)
    (h : status = some 401) :
    getItem (interceptErrorResponse status b).storage "auth_token" = none ∧
    (interceptErrorResponse status b).location = "/login" ∧
    isAuthenticatedAfterRestore (interceptErrorResponse status b).storage = false := by
  subst h
  have hst : interceptErrorResponse (some 401) b =
      { storage := removeItem b.storage "auth_token", location := "/login" } := by
    simp [interceptErrorResponse]
  rw [hst]
  exact ⟨getItem_removeItem_self _ _, rfl,
    by simp [isAuthenticatedAfterRestore, getItem_removeItem_self]⟩

/-- C3 witness: a concrete 401 against a browser holding a token. -/
theorem unauthorized_clears_credential_and_redirects_witness :
    getItem (interceptErrorResponse (some 401)
      { storage := [("auth_token", "tok")], location := "/dashboard" }).storage "auth_token" = none ∧
    (interceptErrorResponse (some 401)
      { storage := [("auth_token", "tok")], location := "/dashboard" }).location = "/login" ∧
    isAuthenticatedAfterRestore (interceptErrorResponse (some 401)
      { storage := [("auth_token", "tok")], location := "/dashboard" }).storage = false :=
  unauthorized_clears_credential_and_redirects (some 401)
    { storage := [("auth_token", "tok")], location := "/dashboard" } rfl

/-! ## C4 — `updateProject` replaces by id and refreshes the active pointer -/

/-- C4: `updateProject p` keeps the projects list's length, replaces
exactly the entries whose id equals `p.id` (entries with a different id
are unchanged in place), updates the active project reference to `p` when
its id matches, and leaves it unchanged otherwise (including when it is
null). -/
theorem updateProject_replaces_by_id (s : AppCtx.AppState) (p : Project) :
    (AppCtx.updateProject p s).projects.length = s.projects.length ∧
    (∀ (i : Nat) (q : Project), s.projects[i]? = some q →
      (q.id = p.id → (AppCtx.updateProject p s).projects[i]? = some p) ∧
      (q.id ≠ p.id → (AppCtx.updateProject p s).projects[i]? = some q)) ∧
    (∀ c : Project, s.currentProject = some c →
      (c.id = p.id → (AppCtx.updateProject p s).currentProject = some p) ∧
      (c.id ≠ p.id → (AppCtx.updateProject p s).currentProject = some c)) ∧
    (s.currentProject = none → (AppCtx.updateProject p s).currentProject = none) := by
  refine ⟨?_, ?_, ?_, ?_⟩
  · simp [AppCtx.updateProject]
  · intro i q hq
    constructor
    · intro hid
      simp [AppCtx.updateProject, List.getElem?_map, hq, hid]
    · intro hid
      simp [AppCtx.updateProject, List.getElem?_map, hq, hid]
  · intro c hc
    constructor <;> intro hid <;> simp [AppCtx.updateProject, hc, hid]
  · intro h
    simp [AppCtx.updateProject, h]

/-- C4 witness: updating with a renamed copy of the active project `p1`
replaces the list entry at index 0, leaves the `p2` entry at index 1
unchanged, and refreshes the active pointer. -/
theorem updateProject_replaces_by_id_witness :
    (AppCtx.updateProject { sampleProject with name := "Gamma" } sampleState).projects[0]?
      = some { sampleProject with name := "Gamma" } ∧
    (AppCtx.updateProject { sampleProject with name := "Gamma" } sampleState).projects[1]?
      = some sampleProject2 ∧
    (AppCtx.updateProject { sampleProject with name := "Gamma" } sampleState).currentProject
      = some { sampleProject with name := "Gamma" } :=
  ⟨((updateProject_replaces_by_id sampleState { sampleProject with name := "Gamma" }).2.1
      0 sampleProject rfl).1 rfl,
   ((updateProject_replaces_by_id sampleState { sampleProject with name := "Gamma" }).2.1
      1 sampleProject2 rfl).2 (by decide),
   ((updateProject_replaces_by_id sampleState { sampleProject with name := "Gamma" }).2.2.1
      sampleProject rfl).1 rfl⟩

/-! ## C5 — `removeProject` removes by id and may null the active pointer -/

/-- C5: `removeProject pid` removes from the projects list exactly the
entries whose id equals `pid`: membership in the result is membership in
the original with a different id, the result is a sublist of the original
(other entries unchanged, in order), and the length drops by exactly the
number of matching entries; the active reference becomes null when its id
matches `pid`, and is unchanged otherwise (including when it is null). -/
theorem removeProject_removes_by_id (s : AppCtx.AppState) (pid : String) :
    (∀ q : Project, q ∈ (AppCtx.removeProject pid s).projects ↔
      (q ∈ s.projects ∧ q.id ≠ pid)) ∧
    (AppCtx.removeProject pid s).projects.Sublist s.projects ∧
    (AppCtx.removeProject pid s).projects.length
      + s.projects.countP (fun q => q.id == pid) = s.projects.length ∧
    (∀ c : Project, s.currentProject = some c →
      (c.id = pid → (AppCtx.removeProject pid s).currentProject = none) ∧
      (c.id ≠ pid → (AppCtx.removeProject pid s).currentProject = some c)) ∧
    (s.currentProject = none → (AppCtx.removeProject pid s).currentProject = none) := by
  refine ⟨?_, ?_, ?_, ?_, ?_⟩
  · intro q
    simp [AppCtx.removeProject, List.mem_filter]
  · exact List.filter_sublist s.projects
  · simp only [AppCtx.removeProject]
    induction s.projects with
    | nil => simp
    | cons q l ih =>
        by_cases h : q.id = pid
        · simp [List.filter_cons, List.countP_cons, h]
          omega
        · simp [List.filter_cons, List.countP_cons, h]
          omega
  · intro c hc
    constructor <;> intro hid <;> simp [AppCtx.removeProject, hc, hid]
  · intro h
    simp [AppCtx.removeProject, h]

/-- C5 witness: removing the active project's id `"p1"` from the sample
state nulls the active pointer, drops the `p1` entry, and keeps `p2`. -/
theorem removeProject_removes_by_id_witness :
    (AppCtx.removeProject "p1" sampleState).currentProject = none ∧
    (sampleProject2 ∈ (AppCtx.removeProject "p1" sampleState).projects ↔
      (sampleProject2 ∈ sampleState.projects ∧ sampleProject2.id ≠ "p1")) ∧
    ¬ sampleProject ∈ (AppCtx.removeProject "p1" sampleState).projects :=
  ⟨((removeProject_removes_by_id sampleState "p1").2.2.2.1 sampleProject rfl).1 rfl,
   (removeProject_removes_by_id sampleState "p1").1 sampleProject2,
   fun hmem =>
     (((removeProject_removes_by_id sampleState "p1").1 sampleProject).mp hmem).2 rfl⟩

/-! ## C6 — the editor convert flow replaces or preserves the storyboard -/

/-- C6: when the convert guard passes (a project is open and the script is
non-blank), a successful conversion call replaces the displayed scene
list entirely with the returned list, and a failed conversion call
records a `CONVERT_ERROR` with the failure message while leaving the
previously displayed scene list exactly unchanged. -/
theorem convert_flow_replaces_or_preserves_storyboard (now : String)
    (call : ApiResult ConversionResponse) (v : Editor.EditorView)
    (hp : v.currentProject ≠ none) (hs : jsTrim v.scriptContent ≠ "") :
    (∀ resp : ConversionResponse, call = ApiResult.ok resp →
      (Editor.handleConvertScript now call v).storyboard = resp.storyboard) ∧
    (∀ m : String, call = ApiResult.err m →
      (Editor.handleConvertScript now call v).storyboard = v.storyboard ∧
      (Editor.handleConvertScript now call v).ui.error
        = some { code := "CONVERT_ERROR", message := m, timestamp := now } ∧
      (Editor.handleConvertScript now call v).ui.success = none) := by
  constructor
  · intro resp hcall
    subst hcall
    simp [Editor.handleConvertScript, hp, hs]
  · intro m hcall
    subst hcall
    refine ⟨?_, ?_, ?_⟩ <;>
      simp [Editor.handleConvertScript, hp, hs, AppCtx.setError]

/-- C6 witness: with a concrete open project and script, a successful call
returning an empty scene list replaces the sample storyboard, and a
failing call preserves it while recording the error. -/
theorem convert_flow_replaces_or_preserves_storyboard_witness :
    (Editor.handleConvertScript "t0"
      (ApiResult.ok { success := true, storyboard := [], processingTime := 7, metadata := none })
      sampleEditorView).storyboard = [] ∧
    (Editor.handleConvertScript "t0" (ApiResult.err "boom") sampleEditorView).storyboard
      = sampleEditorView.storyboard ∧
    (Editor.handleConvertScript "t0" (ApiResult.err "boom") sampleEditorView).ui.error
      = some { code := "CONVERT_ERROR", message := "boom", timestamp := "t0" } :=
  ⟨(convert_flow_replaces_or_preserves_storyboard "t0"
      (ApiResult.ok { success := true, storyboard := [], processingTime := 7, metadata := none })
      sampleEditorView (by decide) (by decide)).1
      { success := true, storyboard := [], processingTime := 7, metadata := none } rfl,
   ((convert_flow_replaces_or_preserves_storyboard "t0" (ApiResult.err "boom")
      sampleEditorView (by decide) (by decide)).2 "boom" rfl).1,
   ((convert_flow_replaces_or_preserves_storyboard "t0" (ApiResult.err "boom")
      sampleEditorView (by decide) (by decide)).2 "boom" rfl).2.1⟩

/-! ## C7 — logout clears the token unconditionally -/

/-- C7: `logout` clears the credential token from persisted storage
whether the remote logout call succeeded or failed (the `finally` block
runs unconditionally), and propagates the remote outcome. -/
theorem logout_always_clears_token (remote : Except String Unit) (s : LocalStorage) :
    getItem (ApiService.logout remote s).2 "auth_token" = none ∧
    (ApiService.logout remote s).1 = remote :=
  ⟨getItem_removeItem_self s "auth_token", rfl⟩

/-! ## C8 — short project names are rejected locally -/

/-- C8: a create-project form whose name has fewer than 3 characters is
rejected locally — `handleCreateProject` returns without issuing the
network request, and the validation record carries a name-field error. -/
theorem short_name_rejected_locally (f : Dashboard.CreateForm)
    (h : f.name.length < 3) :
    Dashboard.handleCreateProject f
      = Dashboard.CreateOutcome.rejected (Dashboard.validateCreateForm f) ∧
    (Dashboard.validateCreateForm f).name.isSome = true := by
  have hname : (Dashboard.validateCreateForm f).name.isSome = true := by
    unfold Dashboard.validateCreateForm
    by_cases ht : jsTrim f.name = "" <;> simp [ht, h]
  refine ⟨?_, hname⟩
  cases ho : (Dashboard.validateCreateForm f).name with
  | none => rw [ho] at hname; simp at hname
  | some e =>
      simp [Dashboard.handleCreateProject, Dashboard.isValidCreateForm, ho]

/-- C8 witness: the two-character name `"ab"` is rejected with a
name-field error. -/
theorem short_name_rejected_locally_witness :
    Dashboard.handleCreateProject { name := "ab", description := "", scriptContent := "" }
      = Dashboard.CreateOutcome.rejected
          (Dashboard.validateCreateForm { name := "ab", description := "", scriptContent := "" }) ∧
    (Dashboard.validateCreateForm
      { name := "ab", description := "", scriptContent := "" }).name.isSome = true :=
  short_name_rejected_locally { name := "ab", description := "", scriptContent := "" } (by decide)

/-! ## C9 — the container's `clearCache` removes exactly the `cache_` keys -/

/-- C9: for every storage state and key, the state container's
`clearCache` removes the keys namespaced with `'cache_'` and leaves every
other key's value (credential token, theme preference, …) unchanged. -/
theorem clearCache_removes_exactly_cache_keys (s : LocalStorage) (k : String) :
    (strStartsWith "cache_" k = true → getItem (AppCtx.clearCache s) k = none) ∧
    (strStartsWith "cache_" k = false → getItem (AppCtx.clearCache s) k = getItem s k) := by
  constructor
  · intro hk
    unfold AppCtx.clearCache
    cases hv : getItem s k with
    | none => exact foldl_clearCacheStep_none k _ s hv
    | some v =>
        apply foldl_clearCacheStep_of_mem k hk
        apply mem_storageKeys_of_getItem
        simp [hv]
  · intro hk
    exact foldl_clearCacheStep_of_not_cache k hk _ s

/-- C9 witness: on a concrete storage holding a cache entry, the token
and the theme, `clearCache` drops the cache entry and preserves the other
two values. -/
theorem clearCache_removes_exactly_cache_keys_witness :
    getItem (AppCtx.clearCache [("cache_a", "1"), ("auth_token", "tok"), ("theme", "dark")])
      "cache_a" = none ∧
    getItem (AppCtx.clearCache [("cache_a", "1"), ("auth_token", "tok"), ("theme", "dark")])
      "auth_token"
      = getItem [("cache_a", "1"), ("auth_token", "tok"), ("theme", "dark")] "auth_token" ∧
    getItem (AppCtx.clearCache [("cache_a", "1"), ("auth_token", "tok"), ("theme", "dark")])
      "theme"
      = getItem [("cache_a", "1"), ("auth_token", "tok"), ("theme", "dark")] "theme" :=
  ⟨(clearCache_removes_exactly_cache_keys
      [("cache_a", "1"), ("auth_token", "tok"), ("theme", "dark")] "cache_a").1 (by decide),
   (clearCache_removes_exactly_cache_keys
      [("cache_a", "1"), ("auth_token", "tok"), ("theme", "dark")] "auth_token").2 (by decide),
   (clearCache_removes_exactly_cache_keys
      [("cache_a", "1"), ("auth_token", "tok"), ("theme", "dark")] "theme").2 (by decide)⟩

/-! ## C10 — `updateProject` with an unknown id is a no-op -/

/-- C10: when no list entry carries `p.id`, `updateProject p` leaves the
projects list unchanged (the project is not inserted), and when the
active project's id also differs (or is null) the whole container state
is unchanged. -/
theorem updateProject_unknown_id_noop (s : AppCtx.AppState) (p : Project)
    (h : ∀ q ∈ s.projects, q.id ≠ p.id) :
    (AppCtx.updateProject p s).projects = s.projects ∧
    ((∀ c : Project, s.currentProject = some c → c.id ≠ p.id) →
      AppCtx.updateProject p s = s) := by
  have hmap : s.projects.map (fun q => if q.id = p.id then p else q) = s.projects := by
    have := List.map_congr_left (l := s.projects)
      (f := fun q => if q.id = p.id then p else q) (g := id)
      (fun q hq => by simp [h q hq])
    simpa using this
  constructor
  · simpa [AppCtx.updateProject] using hmap
  · intro hc
    cases s with
    | mk ui cur projs cache th up =>
        cases cur with
        | none => simp [AppCtx.updateProject, hmap]
        | some c =>
            have hcid : c.id ≠ p.id := hc c rfl
            simp [AppCtx.updateProject, hmap, hcid]

/-- C10 witness: updating the sample state with a project whose id `"p9"`
occurs nowhere leaves the state exactly unchanged. -/
theorem updateProject_unknown_id_noop_witness :
    AppCtx.updateProject { sampleProject with id := "p9" } sampleState = sampleState :=
  (updateProject_unknown_id_noop sampleState { sampleProject with id := "p9" }
      (by decide)).2 (fun c hc => by
        rw [show sampleState.currentProject = some sampleProject from rfl] at hc
        cases hc
        decide)

end AutoFilm
